import Mathlib

/-!
Shallow embedding, in Lean 4, of the data model and operations of the
param-ext extraction pipeline (RAG-based epidemiological parameter
extraction from PDF papers), together with theorems settling the frozen
specification claims C1..C10.

Conventions of the embedding:
- Pure Python functions become Lean functions; machine integers are `Int`/`Nat`.
- Fallible Python code (exceptions) returns `Except String α`, the error string
  naming the Python exception raised.
- Filesystem / network effects are made explicit: the OCR cache and output
  directory become an explicit state record, external collaborators (embedding
  ranking, chat-completion, JSON parsing) become function parameters.
-/

namespace ParamExt

deriving instance DecidableEq for Except

/-! ## Python primitives -/

/-- Value of a decimal digit character, `none` for any other character. -/
def charDigit? (c : Char) : Option Nat :=
  if 48 ≤ c.toNat ∧ c.toNat ≤ 57 then some (c.toNat - 48) else none

/-- Python `int(s)` applied to a string: strips surrounding whitespace and parses an
optionally signed decimal integer; anything else (including the empty string) raises
`ValueError`. (Exotic accepted literals such as digit-grouping underscores are not
modelled.) -/
def pyIntOfString (s : String) : Except String Int :=
  let t := (((s.data.dropWhile Char.isWhitespace).reverse.dropWhile
    Char.isWhitespace).reverse)
  let signDigits : Int × List Char :=
    match t with
    | '-' :: ds => (-1, ds)
    | '+' :: ds => (1, ds)
    | ds => (1, ds)
  match signDigits.2 with
  | [] => Except.error ("ValueError: invalid literal for int() with base 10: " ++ s)
  | ds =>
    match ds.foldlM (fun acc c => (charDigit? c).map (fun d => acc * 10 + d)) (0 : Nat) with
    | some v => Except.ok (signDigits.1 * v)
    | none => Except.error ("ValueError: invalid literal for int() with base 10: " ++ s)

/-- Python list indexing `xs[i]`: negative indices count from the end; an index out of
range (on either side) raises `IndexError`. -/
def pyListGet {α : Type} (xs : List α) (i : Int) : Except String α :=
  let j : Int := if i < 0 then i + xs.length else i
  if 0 ≤ j then
    match xs.get? j.toNat with
    | some a => Except.ok a
    | none => Except.error "IndexError: list index out of range"
  else Except.error "IndexError: list index out of range"

/-! ## `LLM_interaction/rag.py` — the `ChromaRetriever` vector store adapter

A chroma collection is modelled as the ordered list of its records; the external
embedding provider is abstracted as a ranking function `rank : query → document → ℚ`
(the cosine distance of the two embeddings), so nearest-neighbour search is
"sort the candidate records by `rank q` and take the first `n_results`". -/

structure VecRecord where
  id : String
  document : String
  paperId : String
deriving DecidableEq

/-- Modelled from the chromadb collaborator (an external dependency of `rag.py`):
`Collection.add` inserts each record whose `id` is not yet present in the collection;
a record whose `id` already exists is ignored with a logged warning — it is neither
duplicated nor overwritten (overwriting requires `Collection.upsert`, which
`ChromaRetriever` never calls). -/
def chromaAdd (c : List VecRecord) : List VecRecord → List VecRecord
  | [] => c
  | r :: rs =>
    if (c.map VecRecord.id).contains r.id then chromaAdd c rs
    else chromaAdd (c ++ [r]) rs

/-- Embeds `ChromaRetriever.create_db`: any existing collection of that name is deleted
and an empty collection is created in its place (a destructive reset). -/
def create_db : List VecRecord := []

/-- Embeds the id synthesis of `add_paper_data`: `f"paper{paper_id}section{i}"`. -/
def section_id (paper_id : String) (i : Nat) : String :=
  "paper" ++ paper_id ++ "section" ++ toString i

/-- Embeds `ChromaRetriever.add_paper_data`: every chunk is tagged with the metadata
`{"paper_id": paper_id}`; ids are synthesized as `paper{paper_id}section{i}` with `i`
drawn from `section_ids` when provided and from `range (len sections)` otherwise. -/
def add_paper_data (c : List VecRecord) (sections : List String) (paper_id : String)
    (section_ids : Option (List Nat)) : List VecRecord :=
  let idxs : List Nat :=
    match section_ids with
    | none => List.range sections.length
    | some l => l
  let ids := idxs.map (section_id paper_id)
  chromaAdd c (List.zipWith (fun doc i => VecRecord.mk i doc paper_id) sections ids)

/-- Embeds `ChromaRetriever.retrieve_from_paper`: for each query text independently,
the `where={"paper_id": paper_id}` metadata filter is applied unconditionally and the
`n_results` nearest remaining records are returned. -/
def retrieve_from_paper (rank : String → String → ℚ) (c : List VecRecord)
    (query : List String) (paper_id : String) (n_results : Nat) : List (List VecRecord) :=
  query.map (fun q =>
    (List.mergeSort (c.filter (fun r => r.paperId == paper_id))
      (fun a b => decide (rank q a.document ≤ rank q b.document))).take n_results)

/-! ## `LLM_interaction/gpt_client.py` — the text-generation adapter -/

structure ChatMessage where
  role : String
  content : String
deriving DecidableEq

/-- Request actually issued to the chat-completions endpoint. Optional sampling
parameters that `ask_GPT` does not pass are `none`. -/
structure ChatCompletionRequest where
  model : String
  messages : List ChatMessage
  temperature : Option ℚ
deriving DecidableEq

/-- Embeds the request construction in `ask_GPT`:
`client.chat.completions.create(model=deployment_name, messages=prompt)`.
Only `model` and `messages` are passed; no `temperature` (nor any other sampling
parameter) is set, so the provider-side default applies. -/
def ask_GPT_request (prompt : List ChatMessage) (deployment_name : String) :
    ChatCompletionRequest :=
  { model := deployment_name, messages := prompt, temperature := none }

/-- Default value of the `deployment_name` argument of `ask_GPT`. -/
def ask_GPT_default_deployment : String := "gpt-4o-mini"

/-! ## `text_extractor/docint.py` — `TextExtractor.section_chunks` -/

/-- Splitter loop for `pySplitSlash`: accumulates the current segment (reversed). -/
def splitSlashAux : List Char → List Char → List String
  | [], cur => [String.mk cur.reverse]
  | c :: rest, cur =>
    if c = '/' then String.mk cur.reverse :: splitSlashAux rest []
    else splitSlashAux rest (c :: cur)

/-- Python `s.split("/")`: the segments of `s` between the slashes (a leading slash
yields a leading empty segment, as in `"/paragraphs/7".split("/") ==
["", "paragraphs", "7"]`). -/
def pySplitSlash (s : String) : List String :=
  splitSlashAux s.data []

/-- Embeds the index parsing inside `section_chunks`:
`paragraph_index = int(paragraph.split("/")[-1])` for an element reference such as
`"/paragraphs/7"`. -/
def parse_element_index (elem : String) : Except String Int :=
  pyIntOfString ((pySplitSlash elem).getLastD "")

/-- Embeds the inner loop of `section_chunks` for one section: starting from the empty
string, each referenced paragraph's content followed by `"\n"` is appended; looking up
the parsed index in the paragraph list uses Python list indexing (raises `IndexError`
when the referenced paragraph is absent). -/
def section_chunk (paragraphs : List String) (elements : List String) :
    Except String String :=
  elements.foldlM (fun contents elem => do
    let idx ← parse_element_index elem
    let p ← pyListGet paragraphs idx
    Except.ok (contents ++ p ++ "\n")) ""

/-- Embeds `TextExtractor.section_chunks`: one chunk per section of the analysis
result, in order. Any exception raised for any element propagates out. -/
def section_chunks (paragraphs : List String) (sections : List (List String)) :
    Except String (List String) :=
  sections.mapM (section_chunk paragraphs)

/-! ## `prompt_refiner.py` — OCR cache, `export_text`, iteration numbering

Filesystem effects are threaded through an explicit state: the cache directory's
files, whether the fixed `test_output` directory of `export_text` exists, and the
number of calls made so far to the external OCR collaborator (`ocr`, abstracted as a
function from the pdf path to the extracted `full_text`). -/

structure RefinerState where
  cache : List (String × String)
  outputDirExists : Bool
  ocrCalls : Nat
deriving DecidableEq

/-- Embeds `TextExtractor.export_text` as called on a freshly constructed
`TextExtractor(output_dir="test_output")` after an extraction: `os.mkdir` raises
`FileExistsError` when the directory already exists (it is not idempotent), otherwise
it creates the directory and the text file is written inside it. -/
def export_text (st : RefinerState) : Except String RefinerState :=
  if st.outputDirExists then
    Except.error "FileExistsError: [Errno 17] File exists: test_output"
  else Except.ok { st with outputDirExists := true }

/-- Embeds `prompt_refiner.extract_text_from_pdf`: presence of the per-paper cache
file `{paper_number}.txt` is the sole cache-hit signal; on a hit the cached text is
returned with no OCR call, on a miss the OCR collaborator is invoked once, the text is
exported through `export_text`, written to the cache file, and returned. -/
def extract_text_from_pdf (ocr : String → String) (st : RefinerState)
    (pdf_path : String) (paper_number : String) : Except String (String × RefinerState) :=
  match st.cache.lookup paper_number with
  | some text => Except.ok (text, st)
  | none =>
    let st1 : RefinerState := { st with ocrCalls := st.ocrCalls + 1 }
    let text := ocr pdf_path
    match export_text st1 with
    | Except.error e => Except.error e
    | Except.ok st2 =>
      Except.ok (text, { st2 with cache := (paper_number, text) :: st2.cache })

/-- Cell of a pandas `DataFrame` column as far as the ledger logic needs it: an
integer, a string, or NA (`NaN`). -/
inductive PdCell where
  | intVal (n : Int)
  | strVal (s : String)
  | na
deriving DecidableEq

/-- Embeds pandas `isna` on one cell: only NaN is NA — the empty string is NOT. -/
def cellIsNA : PdCell → Bool
  | PdCell.na => true
  | _ => false

/-- Embeds the pairwise comparison underlying `Series.max()` on an object-dtype
column: two ints or two strings compare normally; comparing an int with a string
raises `TypeError`. -/
def cellMax : PdCell → PdCell → Except String PdCell
  | PdCell.intVal a, PdCell.intVal b => Except.ok (PdCell.intVal (max a b))
  | PdCell.strVal a, PdCell.strVal b => Except.ok (PdCell.strVal (max a b))
  | _, _ => Except.error "TypeError: unsupported comparison between instances of int and str"

/-- Embeds `Series.max()` with the pandas default `skipna=True`: NA cells are skipped;
the max of an empty or all-NA series is NaN. -/
def seriesMax (cells : List PdCell) : Except String PdCell :=
  match cells.filter (fun c => !(cellIsNA c)) with
  | [] => Except.ok PdCell.na
  | x :: rest => rest.foldlM cellMax x

/-- Embeds Python `int(x)` applied to a cell value. -/
def pyIntOfCell : PdCell → Except String Int
  | PdCell.intVal n => Except.ok n
  | PdCell.strVal s => pyIntOfString s
  | PdCell.na => Except.error "ValueError: cannot convert float NaN to integer"

/-- Embeds the iteration-number computation of `prompt_refiner.load_data_and_setup`.
After `pd.read_csv`, every required column missing from the file — in particular
`"Iteration"` — is back-filled with the empty string for each of the `nRows` existing
rows (`results_df[col] = ""`). Then:
`if "Iteration" in results_df.columns and not results_df["Iteration"].isna().all():
current_iteration = int(results_df["Iteration"].max()) + 1 else: 1`.
The `"Iteration" in columns` conjunct is always true after back-filling.
`iterationCol = none` models a ledger file whose header lacks the Iteration column. -/
def load_data_and_setup_iteration (iterationCol : Option (List PdCell)) (nRows : Nat) :
    Except String Int :=
  let col : List PdCell :=
    match iterationCol with
    | some cells => cells
    | none => List.replicate nRows (PdCell.strVal "")
  if col.all cellIsNA then Except.ok 1
  else do
    let m ← seriesMax col
    let v ← pyIntOfCell m
    Except.ok (v + 1)

/-- One row of the result ledger as written by `prompt_refiner.main`. -/
structure ExtractionRecord where
  prompt : String
  modelName : String
  parameterName : String
  paperNumber : String
  extractedParameter : String
  trueParameter : String
  successFail : String
  confusion : String
  iteration : Int
deriving DecidableEq

/-- Embeds the double loop of `prompt_refiner.main` as far as record construction is
concerned: for every parameter and every paper a result dict is built whose
`"Iteration"` entry is the single `current_iteration` value computed once by
`load_data_and_setup`. Prompts, GPT extractions and the human judgments are abstracted
as functions of the parameter and paper. -/
def refiner_run_records (params papers : List String) (prompts : String → String)
    (extracted truth success confusion : String → String → String)
    (current_iteration : Int) : List ExtractionRecord :=
  List.flatten (params.map (fun param => papers.map (fun paper =>
    { prompt := prompts param, modelName := "gpt-4o-mini", parameterName := param,
      paperNumber := paper, extractedParameter := extracted param paper,
      trueParameter := truth param paper, successFail := success param paper,
      confusion := confusion param paper, iteration := current_iteration })))

/-- Embeds the user-message text built inside `generate_improved_prompt` (the long
f-string with holes for the parameter name and the history block). -/
def improve_prompt_text (parameter previous_prompts : String) : String :=
  "You are an AI assistant tasked with improving prompt design for extracting specific **epidemiological parameters** from medical research papers using large language models.\n\n"
  ++ "### Objective:\n"
  ++ "Your job is to extract only the **" ++ parameter ++ "** from research paper text using a well-crafted prompt. You are provided with a history of previous prompts along with examples of their performance. Each block includes:\n"
  ++ "- The prompt that was used\n"
  ++ "- The model\x27s extracted output\n"
  ++ "- The correct (ground truth) value\n"
  ++ "- Whether the extraction was marked a success or failure by a human evaluator\n\n"
  ++ "### Instructions:\n"
  ++ "- You may revise and improve the **retrieval instructions** section that precedes the document text in order to increase extraction accuracy.\n"
  ++ "- However, you **must not remove** the retrieval instructions altogether — they are required and must remain present in the improved prompt.\n"
  ++ "- Analyze patterns in failed extractions: how did the extracted value differ from the true one? What kinds of misunderstanding, vagueness, or missing guidance might have contributed?\n"
  ++ "- Likewise, consider what made successful prompts work. What specific phrasing or framing helped guide the model toward the correct answer?\n"
  ++ "- Use this insight to improve the retrieval instructions section and/or the phrasing of the core task instruction.\n"
  ++ "- Your output must be a **single improved prompt**, suitable for future GPT use.\n"
  ++ "### Constraints:\n"
  ++ "- Your output must be a single prompt for extracting the parameter **only**.\n"
  ++ "- **Do NOT include any explanation, commentary, or justification. Just return the improved prompt as plain text.**\n\n"
  ++ "### Historical Prompt Examples with Performance:\n"
  ++ previous_prompts

/-- Embeds `prompt_refiner.generate_improved_prompt`: the only place in the pipeline
wrapped in try/except. The generation collaborator `gen` and the read of
`config/refiner_prompt.txt` (`refiner_prompt_file`) may fail; on any exception the
sentinel `"Not Found"` is returned instead. On success the mandatory retrieval
instructions are re-prepended around the model's reply exactly as in the f-string. -/
def generate_improved_prompt (gen : List ChatMessage → Except String String)
    (refiner_prompt_file : Except String String) (parameter previous_prompts : String) :
    String :=
  match (do
    let response ← gen [{ role := "user",
                          content := improve_prompt_text parameter previous_prompts }]
    let retrieval_instructions ← refiner_prompt_file
    Except.ok (retrieval_instructions ++ "\n\n**Parameter to Extract:** " ++ parameter
      ++ "\n" ++ response ++ "  # <-- This is the improved prompt\n")) with
  | Except.ok p => p
  | Except.error _ => "Not Found"

/-! ## `rag_pipeline.py` — the extraction phase of `main` -/

/-- Embeds Python `str` applied to a list of strings, as used by the f-strings
`f"...{parameters}"` and `f"...{rag_context}"`. -/
def pyStrOfList (xs : List String) : String :=
  "[" ++ String.intercalate ", " (xs.map (fun s => "\x27" ++ s ++ "\x27")) ++ "]"

/-- Embeds the first-pass prompt of `rag_pipeline.main`. -/
def rag_first_prompt (sys_prompt : String) (parameters : List String)
    (rag_context : List String) : List ChatMessage :=
  [{ role := "system", content := sys_prompt },
   { role := "user", content := "These are the requested parameters:\n"
      ++ pyStrOfList parameters ++ "\n\n" },
   { role := "user", content := "These are the relevant extracts: \n"
      ++ pyStrOfList rag_context }]

/-- Embeds the second-pass (schema refinement) prompt of `rag_pipeline.main`. -/
def rag_second_prompt (refine_prompt : String) (parameters : List String)
    (first_response : String) : List ChatMessage :=
  [{ role := "system", content := refine_prompt },
   { role := "user", content := "These are the requested parameters:\n"
      ++ pyStrOfList parameters ++ "\n\n" },
   { role := "user", content := "This is the text:\n" ++ first_response }]

/-- Embeds the per-file body of the extraction loop of `rag_pipeline.main`: retrieval
(the per-file concatenated context blocks abstracted as `contexts`), two chained
`ask_GPT` calls, then `json.loads` (abstracted as `parseJson`, returning the
parameter-to-value mapping). `main` contains no try/except: any provider or parse
failure propagates as the exception. -/
def rag_process_file (gen : List ChatMessage → Except String String)
    (parseJson : String → Except String (List (String × String)))
    (sys_prompt refine_prompt : String) (parameters : List String)
    (contexts : String → List String) (filename : String) :
    Except String (List (String × String)) := do
  let first_response ← gen (rag_first_prompt sys_prompt parameters (contexts filename))
  let refined_response ← gen (rag_second_prompt refine_prompt parameters first_response)
  parseJson refined_response

/-- Embeds the whole extraction phase of `rag_pipeline.main` over the folder's PDF
files, accumulating `(filename, found_parameters)` rows in order. A failure for any
single file aborts the entire run — the exception propagates out of `main` and no
output table is produced at all. -/
def rag_pipeline_loop (gen : List ChatMessage → Except String String)
    (parseJson : String → Except String (List (String × String)))
    (sys_prompt refine_prompt : String) (parameters : List String)
    (contexts : String → List String) :
    List String → List (String × List (String × String)) →
    Except String (List (String × List (String × String)))
  | [], acc => Except.ok acc
  | filename :: rest, acc =>
    match rag_process_file gen parseJson sys_prompt refine_prompt parameters
        contexts filename with
    | Except.error e => Except.error e
    | Except.ok found =>
      rag_pipeline_loop gen parseJson sys_prompt refine_prompt parameters contexts
        rest (acc ++ [(filename, found)])

/-- Entry point of the extraction phase: the `data`/`titles` accumulators start
empty. -/
def rag_pipeline_run (gen : List ChatMessage → Except String String)
    (parseJson : String → Except String (List (String × String)))
    (sys_prompt refine_prompt : String) (parameters : List String)
    (contexts : String → List String) (files : List String) :
    Except String (List (String × List (String × String))) :=
  rag_pipeline_loop gen parseJson sys_prompt refine_prompt parameters contexts files []

/-! ## `utils/evaluate_confusion_metrics.py` -/

/-- Embeds `safe_divide`: division, except that a zero denominator yields NaN
(modelled as `none`). -/
def safe_divide (numerator denominator : ℚ) : Option ℚ :=
  if denominator ≠ 0 then some (numerator / denominator) else none

/-- One ledger row as far as the evaluation script reads it. -/
structure LedgerRow where
  iteration : Int
  confusion : String
deriving DecidableEq

/-- Embeds `df_current = df[df["Iteration"] == iteration]` followed by reading the
`"Confusion"` column. -/
def confusion_column (rows : List LedgerRow) (iteration : Int) : List String :=
  (rows.filter (fun r => r.iteration == iteration)).map LedgerRow.confusion

structure ConfusionMetrics where
  tp : Nat
  tn : Nat
  fp : Nat
  fn : Nat
  sensitivity : Option ℚ
  specificity : Option ℚ
  precision : Option ℚ
  accuracy : Option ℚ
  f1_score : Option ℚ
deriving DecidableEq

/-- Embeds `compute_confusion_matrix`: label counts come from
`value_counts().to_dict()` with `.get(label, 0)`, the metrics from `safe_divide`
exactly as in the source. The MCC metric, whose denominator is `math.sqrt` on floats,
lies outside the rational fragment and is not part of any claim. -/
def compute_confusion_matrix (confusion : List String) : ConfusionMetrics :=
  let TP : Nat := confusion.count "TP"
  let TN : Nat := confusion.count "TN"
  let FP : Nat := confusion.count "FP"
  let FN : Nat := confusion.count "FN"
  { tp := TP, tn := TN, fp := FP, fn := FN,
    sensitivity := safe_divide TP (TP + FN),
    specificity := safe_divide TN (TN + FP),
    precision := safe_divide TP (TP + FP),
    accuracy := safe_divide (TP + TN) (TP + TN + FP + FN),
    f1_score := safe_divide (2 * TP) (2 * TP + FP + FN) }

/-! ## Injectivity of decimal rendering

The synthesized chunk ids embed a decimal chunk index via `toString = Nat.repr`;
distinctness of the ids for distinct indices reduces to injectivity of `Nat.repr`,
proved here from first principles (Mathlib 4.14 has no such lemma). -/

/-- Decimal digit list of a natural number, most significant first, as a reference
specification for core's fuel-based `Nat.toDigits`. -/
def decDigits (n : Nat) : List Nat :=
  if _h : n < 10 then [n] else decDigits (n / 10) ++ [n % 10]
decreasing_by
  exact Nat.div_lt_self (by omega) (by omega)

lemma decDigits_eq_small {n : Nat} (h : n < 10) : decDigits n = [n] := by
  rw [decDigits, dif_pos h]

lemma decDigits_eq_large {n : Nat} (h : ¬ n < 10) :
    decDigits n = decDigits (n / 10) ++ [n % 10] := by
  rw [decDigits, dif_neg h]

lemma decDigits_ne_nil (n : Nat) : decDigits n ≠ [] := by
  by_cases h : n < 10
  · rw [decDigits_eq_small h]
    simp
  · rw [decDigits_eq_large h]
    simp

lemma decDigits_lt (n : Nat) : ∀ d ∈ decDigits n, d < 10 := by
  induction n using Nat.strong_induction_on with
  | _ n ih =>
    by_cases h : n < 10
    · rw [decDigits_eq_small h]
      intro d hd
      simp only [List.mem_singleton] at hd
      omega
    · rw [decDigits_eq_large h]
      intro d hd
      rw [List.mem_append, List.mem_singleton] at hd
      rcases hd with hd | hd
      · exact ih (n / 10) (Nat.div_lt_self (by omega) (by omega)) d hd
      · subst hd
        exact Nat.mod_lt _ (by omega)

lemma decDigits_injective : ∀ m n : Nat, decDigits m = decDigits n → m = n := by
  intro m
  induction m using Nat.strong_induction_on with
  | _ m ih =>
    intro n h
    by_cases hm : m < 10 <;> by_cases hn : n < 10
    · rw [decDigits_eq_small hm, decDigits_eq_small hn] at h
      simpa using h
    · rw [decDigits_eq_small hm, decDigits_eq_large hn] at h
      rcases hA : decDigits (n / 10) with _ | ⟨a, as⟩
      · exact absurd hA (decDigits_ne_nil _)
      · rw [hA] at h
        simp at h
    · rw [decDigits_eq_large hm, decDigits_eq_small hn] at h
      rcases hA : decDigits (m / 10) with _ | ⟨a, as⟩
      · exact absurd hA (decDigits_ne_nil _)
      · rw [hA] at h
        simp at h
    · rw [decDigits_eq_large hm, decDigits_eq_large hn] at h
      have hlen : (decDigits (m / 10)).length = (decDigits (n / 10)).length := by
        have := congrArg List.length h
        simp at this
        omega
      obtain ⟨h1, h2⟩ := List.append_inj h (by omega)
      have hdiv : m / 10 = n / 10 :=
        ih (m / 10) (Nat.div_lt_self (by omega) (by omega)) (n / 10) h1
      have hmod : m % 10 = n % 10 := by simpa using h2
      omega

lemma toDigitsCore_eq_decDigits :
    ∀ (f n : Nat) (acc : List Char), n < f →
      Nat.toDigitsCore 10 f n acc = (decDigits n).map Nat.digitChar ++ acc := by
  intro f
  induction f with
  | zero => omega
  | succ f ih =>
    intro n acc hn
    rw [Nat.toDigitsCore]
    by_cases h0 : n / 10 = 0
    · have hlt : n < 10 := by omega
      rw [if_pos h0, decDigits, dif_pos hlt]
      simp [Nat.mod_eq_of_lt hlt]
    · have hge : ¬ n < 10 := by
        intro hc
        exact h0 (Nat.div_eq_of_lt hc)
      rw [if_neg h0, ih (n / 10) _ (by omega), decDigits_eq_large hge]
      simp

lemma digitChar_inj : ∀ a, a < 10 → ∀ b, b < 10 →
    Nat.digitChar a = Nat.digitChar b → a = b := by
  decide

lemma map_digitChar_inj : ∀ (A B : List Nat), (∀ d ∈ A, d < 10) → (∀ d ∈ B, d < 10) →
    A.map Nat.digitChar = B.map Nat.digitChar → A = B := by
  intro A
  induction A with
  | nil =>
    intro B _ _ h
    cases B <;> simp_all
  | cons a as ih =>
    intro B hA hB h
    cases B with
    | nil => simp at h
    | cons b bs =>
      simp only [List.map_cons, List.cons.injEq] at h
      have ha : a < 10 := hA a (List.mem_cons_self a as)
      have hb : b < 10 := hB b (List.mem_cons_self b bs)
      have hab : a = b := digitChar_inj a ha b hb h.1
      subst hab
      have htail : as = bs := ih bs (fun d hd => hA d (List.mem_cons_of_mem a hd))
        (fun d hd => hB d (List.mem_cons_of_mem a hd)) h.2
      rw [htail]

lemma natRepr_injective : Function.Injective Nat.repr := by
  intro m n h
  unfold Nat.repr Nat.toDigits at h
  rw [toDigitsCore_eq_decDigits _ _ _ (Nat.lt_succ_self m),
      toDigitsCore_eq_decDigits _ _ _ (Nat.lt_succ_self n),
      List.append_nil, List.append_nil, List.asString_inj] at h
  exact decDigits_injective m n
    (map_digitChar_inj _ _ (decDigits_lt m) (decDigits_lt n) h)

lemma section_id_injective (paper_id : String) :
    Function.Injective (section_id paper_id) := by
  intro i j h
  unfold section_id at h
  have hd := congrArg String.data h
  simp only [String.data_append] at hd
  have hdata : (toString i).data = (toString j).data := List.append_cancel_left hd
  have heq : toString i = toString j := by
    calc toString i = String.mk (toString i).data := rfl
    _ = String.mk (toString j).data := by rw [hdata]
    _ = toString j := rfl
  exact natRepr_injective heq

/-! ## Collection lemmas -/

lemma mem_chromaAdd : ∀ (rs c : List VecRecord) (r : VecRecord),
    r ∈ chromaAdd c rs → r ∈ c ∨ r ∈ rs := by
  intro rs
  induction rs with
  | nil =>
    intro c r h
    exact Or.inl h
  | cons x xs ih =>
    intro c r h
    rw [chromaAdd] at h
    split at h
    · rcases ih c r h with hc | hx
      · exact Or.inl hc
      · exact Or.inr (List.mem_cons_of_mem x hx)
    · rcases ih (c ++ [x]) r h with hc | hx
      · rcases List.mem_append.mp hc with hc | hx0
        · exact Or.inl hc
        · simp only [List.mem_singleton] at hx0
          exact Or.inr (hx0 ▸ List.mem_cons_self x xs)
      · exact Or.inr (List.mem_cons_of_mem x hx)

lemma id_mem_chromaAdd_left : ∀ (rs c : List VecRecord) (s : String),
    s ∈ c.map VecRecord.id → s ∈ (chromaAdd c rs).map VecRecord.id := by
  intro rs
  induction rs with
  | nil =>
    intro c s h
    exact h
  | cons x xs ih =>
    intro c s h
    rw [chromaAdd]
    split
    · exact ih c s h
    · refine ih (c ++ [x]) s ?_
      simp only [List.map_append]
      exact List.mem_append_left _ h

lemma id_mem_chromaAdd_right : ∀ (rs c : List VecRecord) (r : VecRecord),
    r ∈ rs → r.id ∈ (chromaAdd c rs).map VecRecord.id := by
  intro rs
  induction rs with
  | nil =>
    intro c r h
    exact absurd h (List.not_mem_nil r)
  | cons x xs ih =>
    intro c r h
    rw [chromaAdd]
    rcases List.mem_cons.mp h with hx | hxs
    · subst hx
      split
      · rename_i hmem
        exact id_mem_chromaAdd_left xs c r.id (by simpa using hmem)
      · refine id_mem_chromaAdd_left xs (c ++ [r]) r.id ?_
        simp
    · split
      · exact ih c r hxs
      · exact ih (c ++ [x]) r hxs

lemma chromaAdd_of_present : ∀ (rs c : List VecRecord),
    (∀ r ∈ rs, r.id ∈ c.map VecRecord.id) → chromaAdd c rs = c := by
  intro rs
  induction rs with
  | nil =>
    intro c _
    rfl
  | cons x xs ih =>
    intro c h
    rw [chromaAdd]
    rw [if_pos]
    · exact ih c (fun r hr => h r (List.mem_cons_of_mem x hr))
    · simpa using h x (List.mem_cons_self x xs)

lemma chromaAdd_of_fresh : ∀ (rs c : List VecRecord),
    (∀ r ∈ rs, r.id ∉ c.map VecRecord.id) → (rs.map VecRecord.id).Nodup →
    chromaAdd c rs = c ++ rs := by
  intro rs
  induction rs with
  | nil =>
    intro c _ _
    simp [chromaAdd]
  | cons x xs ih =>
    intro c hfresh hnodup
    rw [chromaAdd]
    rw [if_neg]
    · rw [ih (c ++ [x]) ?_ ?_]
      · simp
      · intro r hr
        simp only [List.map_append, List.mem_append]
        rintro (hc | hx)
        · exact hfresh r (List.mem_cons_of_mem x hr) hc
        · simp only [List.map_cons, List.map_nil, List.mem_singleton] at hx
          simp only [List.map_cons, List.nodup_cons] at hnodup
          exact hnodup.1 (hx ▸ List.mem_map_of_mem VecRecord.id hr)
      · simp only [List.map_cons, List.nodup_cons] at hnodup
        exact hnodup.2
    · simpa using hfresh x (List.mem_cons_self x xs)

lemma paperId_of_mem_zip (pid : String) : ∀ (S ids : List String) (r : VecRecord),
    r ∈ List.zipWith (fun doc i => VecRecord.mk i doc pid) S ids → r.paperId = pid := by
  intro S
  induction S with
  | nil =>
    intro ids r h
    simp at h
  | cons s ss ih =>
    intro ids r h
    cases ids with
    | nil => simp at h
    | cons i is =>
      simp only [List.zipWith_cons_cons, List.mem_cons] at h
      rcases h with h | h
      · rw [h]
      · exact ih is r h

lemma map_id_zip (pid : String) : ∀ (S ids : List String), ids.length = S.length →
    (List.zipWith (fun doc i => VecRecord.mk i doc pid) S ids).map VecRecord.id = ids := by
  intro S
  induction S with
  | nil =>
    intro ids h
    rw [List.length_nil, List.length_eq_zero] at h
    simp [h]
  | cons s ss ih =>
    intro ids h
    cases ids with
    | nil => simp at h
    | cons i is =>
      simp only [List.zipWith_cons_cons, List.map_cons, List.cons.injEq, true_and]
      exact ih is (by simpa using h)

lemma add_paper_data_fresh (S : List String) (pid : String) :
    add_paper_data create_db S pid none
      = List.zipWith (fun doc i => VecRecord.mk i doc pid) S
          ((List.range S.length).map (section_id pid)) := by
  unfold add_paper_data create_db
  rw [chromaAdd_of_fresh _ _ (by simp) ?_]
  · simp
  · rw [map_id_zip pid S _ (by simp)]
    exact (List.nodup_range S.length).map (section_id_injective pid)

lemma add_paper_data_fresh_len (S : List String) (pid : String) :
    (add_paper_data create_db S pid none).length = S.length := by
  rw [add_paper_data_fresh]
  simp

lemma add_paper_data_fresh_paperId (S : List String) (pid : String) :
    ∀ r ∈ add_paper_data create_db S pid none, r.paperId = pid := by
  rw [add_paper_data_fresh]
  intro r hr
  exact paperId_of_mem_zip pid S _ r hr

lemma retrieve_mem_paperId (rank : String → String → ℚ) (c : List VecRecord)
    (qs : List String) (pid : String) (k : Nat) :
    ∀ res ∈ retrieve_from_paper rank c qs pid k, ∀ r ∈ res, r.paperId = pid := by
  intro res hres r hr
  unfold retrieve_from_paper at hres
  obtain ⟨q, _, rfl⟩ := List.mem_map.mp hres
  have hr2 := List.take_subset _ _ hr
  rw [List.mem_mergeSort] at hr2
  have := List.of_mem_filter hr2
  simpa using this

/-! ## Further helper lemmas -/

lemma add_paper_data_eq_chromaAdd (c : List VecRecord) (S : List String) (pid : String) :
    add_paper_data c S pid none
      = chromaAdd c (List.zipWith (fun doc i => VecRecord.mk i doc pid) S
          ((List.range S.length).map (section_id pid))) := rfl

lemma id_in_add_paper_data (c : List VecRecord) (S : List String) (pid : String) :
    ∀ i < S.length, section_id pid i ∈ (add_paper_data c S pid none).map VecRecord.id := by
  intro i hi
  rw [add_paper_data_eq_chromaAdd]
  have hmem : section_id pid i
      ∈ (List.zipWith (fun doc j => VecRecord.mk j doc pid) S
          ((List.range S.length).map (section_id pid))).map VecRecord.id := by
    rw [map_id_zip pid _ _ (by simp)]
    exact List.mem_map_of_mem _ (List.mem_range.mpr hi)
  obtain ⟨r1, hr1, hid⟩ := List.mem_map.mp hmem
  exact hid ▸ id_mem_chromaAdd_right _ _ _ hr1

lemma add_paper_data_reinsert (pid : String) (c : List VecRecord) (S S2 : List String)
    (hlen : S2.length ≤ S.length) :
    add_paper_data (add_paper_data c S pid none) S2 pid none
      = add_paper_data c S pid none := by
  rw [add_paper_data_eq_chromaAdd (add_paper_data c S pid none) S2 pid]
  apply chromaAdd_of_present
  intro r hr
  have hmem : r.id
      ∈ (List.zipWith (fun doc j => VecRecord.mk j doc pid) S2
          ((List.range S2.length).map (section_id pid))).map VecRecord.id :=
    List.mem_map_of_mem _ hr
  rw [map_id_zip pid _ _ (by simp)] at hmem
  obtain ⟨i, hi, hid⟩ := List.mem_map.mp hmem
  rw [← hid]
  exact id_in_add_paper_data c S pid i (by
    have := List.mem_range.mp hi
    omega)

lemma pyListGet_error_of_ge {α : Type} (xs : List α) (i : Int)
    (h : (xs.length : Int) ≤ i) :
    pyListGet xs i = Except.error "IndexError: list index out of range" := by
  have h0 : ¬ i < 0 := by omega
  simp only [pyListGet, if_neg h0]
  rw [if_pos (by omega), List.get?_eq_none.mpr (by omega)]

lemma foldlM_except_error {α β : Type} (g : β → α → Except String β) (x : α)
    (hx : ∀ b : β, ∃ e, g b x = Except.error e) :
    ∀ (l : List α) (init : β), x ∈ l →
      ∃ msg, List.foldlM g init l = Except.error msg := by
  intro l
  induction l with
  | nil =>
    intro init h
    exact absurd h (List.not_mem_nil x)
  | cons a rest ih =>
    intro init hmem
    rw [List.foldlM_cons]
    rcases List.mem_cons.mp hmem with heq | htail
    · obtain ⟨e, he⟩ := hx init
      rw [← heq, he]
      exact ⟨e, rfl⟩
    · cases hg : g init a with
      | error e => exact ⟨e, rfl⟩
      | ok b =>
        obtain ⟨msg, hmsg⟩ := ih b htail
        exact ⟨msg, by simpa using hmsg⟩

lemma mapM_except_error {α β : Type} (g : α → Except String β) (x : α)
    (hx : ∃ e, g x = Except.error e) :
    ∀ l : List α, x ∈ l → ∃ msg, l.mapM g = Except.error msg := by
  intro l
  induction l with
  | nil =>
    intro h
    exact absurd h (List.not_mem_nil x)
  | cons a rest ih =>
    intro hmem
    rw [List.mapM_cons]
    rcases List.mem_cons.mp hmem with heq | htail
    · obtain ⟨e, he⟩ := hx
      rw [← heq, he]
      exact ⟨e, rfl⟩
    · cases hg : g a with
      | error e => exact ⟨e, rfl⟩
      | ok b =>
        obtain ⟨msg, hmsg⟩ := ih htail
        refine ⟨msg, ?_⟩
        show (rest.mapM g >>= fun bs => pure (b :: bs)) = Except.error msg
        rw [hmsg]
        rfl

lemma rag_process_file_ok_first_gen (gen : List ChatMessage → Except String String)
    (parseJson : String → Except String (List (String × String)))
    (sys_prompt refine_prompt : String) (parameters : List String)
    (contexts : String → List String) (f : String)
    (v : List (String × String))
    (h : rag_process_file gen parseJson sys_prompt refine_prompt parameters contexts f
      = Except.ok v) :
    ∃ r, gen (rag_first_prompt sys_prompt parameters (contexts f)) = Except.ok r := by
  cases hg : gen (rag_first_prompt sys_prompt parameters (contexts f)) with
  | ok r => exact ⟨r, rfl⟩
  | error e =>
    unfold rag_process_file at h
    rw [hg] at h
    exact Except.noConfusion h

lemma rag_pipeline_loop_ok_process (gen : List ChatMessage → Except String String)
    (parseJson : String → Except String (List (String × String)))
    (sys_prompt refine_prompt : String) (parameters : List String)
    (contexts : String → List String) :
    ∀ (files : List String) (acc table : List (String × List (String × String))),
      rag_pipeline_loop gen parseJson sys_prompt refine_prompt parameters contexts
          files acc = Except.ok table →
      ∀ f ∈ files, ∃ v, rag_process_file gen parseJson sys_prompt refine_prompt
          parameters contexts f = Except.ok v := by
  intro files
  induction files with
  | nil =>
    intro acc table _ f hf
    exact absurd hf (List.not_mem_nil f)
  | cons x rest ih =>
    intro acc table hok f hf
    rw [rag_pipeline_loop] at hok
    cases hproc : rag_process_file gen parseJson sys_prompt refine_prompt parameters
        contexts x with
    | error e =>
      rw [hproc] at hok
      exact Except.noConfusion hok
    | ok v =>
      rw [hproc] at hok
      rcases List.mem_cons.mp hf with heq | htail
      · exact ⟨v, heq ▸ hproc⟩
      · exact ih _ table hok f htail

/-! ## Claim theorems -/

/-- C1: the vector store adapter's query applies the `paper_id` metadata filter
unconditionally — for every collection, every returned chunk carries the queried paper
id and none a different one — and after `create_db` followed by an insert of N chunks
for a paper, a query with k ≤ N returns, for each query text independently, exactly k
results. -/
theorem C1_metadata_filter_and_exact_k (rank : String → String → ℚ) (pid : String) :
    (∀ (c : List VecRecord) (qs : List String) (k : Nat),
      ∀ res ∈ retrieve_from_paper rank c qs pid k, ∀ r ∈ res, r.paperId = pid)
    ∧
    (∀ (sections qs : List String) (k : Nat), k ≤ sections.length →
      (retrieve_from_paper rank (add_paper_data create_db sections pid none)
          qs pid k).length = qs.length
      ∧ ∀ res ∈ retrieve_from_paper rank (add_paper_data create_db sections pid none)
          qs pid k, res.length = k) := by
  constructor
  · exact fun c qs k => retrieve_mem_paperId rank c qs pid k
  · intro sections qs k hk
    constructor
    · unfold retrieve_from_paper
      rw [List.length_map]
    · intro res hres
      unfold retrieve_from_paper at hres
      obtain ⟨q, _, rfl⟩ := List.mem_map.mp hres
      rw [List.length_take, List.length_mergeSort]
      have hfil : (add_paper_data create_db sections pid none).filter
          (fun r => r.paperId == pid) = add_paper_data create_db sections pid none := by
        rw [List.filter_eq_self]
        intro r hr
        have := add_paper_data_fresh_paperId sections pid r hr
        simp [this]
      rw [hfil, add_paper_data_fresh_len]
      omega

/-- Witness for C1 at a concrete instance: a fresh collection holding two chunks for
paper "1", one query text, k = 2. -/
theorem C1_metadata_filter_and_exact_k_witness :
    (retrieve_from_paper (fun _ _ => (0 : ℚ))
        (add_paper_data create_db ["alpha section text", "beta section text"] "1" none)
        ["what is the case fatality rate"] "1" 2).length = 1 :=
  ((C1_metadata_filter_and_exact_k (fun _ _ => (0 : ℚ)) "1").2
    ["alpha section text", "beta section text"] ["what is the case fatality rate"] 2
    (by decide)).1

/-- C2 as stated is false at this input: the id for (paper "1", chunk 0) is indeed the
derived "paper1section0", but re-inserting chunk 0 with new text does NOT overwrite
the stored record — chroma `add` keeps the old record ("chunk text A") and ignores the
new one ("chunk text B"). -/
theorem C2_counterexample :
    add_paper_data (add_paper_data create_db ["chunk text A"] "1" none)
        ["chunk text B"] "1" none
      = [{ id := "paper1section0", document := "chunk text A", paperId := "1" }]
    ∧ ({ id := "paper1section0", document := "chunk text B", paperId := "1" } : VecRecord)
        ∉ add_paper_data (add_paper_data create_db ["chunk text A"] "1" none)
            ["chunk text B"] "1" none := by
  decide

/-- C2 amended: (1) every record inserted by `add_paper_data` with default ids carries
an id `paper{paper_id}section{i}` with `i < len(sections)`, deterministically derived
from the paper id and chunk index; (2) re-inserting chunks whose chunk indices are all
already present leaves the collection entirely unchanged — existing records are
neither duplicated nor overwritten (the re-inserted text is dropped); (3) hence the
record count for a paper first indexed into a fresh collection equals the number of
distinct chunk indices inserted. -/
theorem C2_amended_ids_derived_no_dup (pid : String) :
    (∀ (c : List VecRecord) (sections : List String),
      ∀ r ∈ add_paper_data c sections pid none,
        r ∈ c ∨ r.id ∈ (List.range sections.length).map (section_id pid))
    ∧
    (∀ (c : List VecRecord) (S S2 : List String), S2.length ≤ S.length →
      add_paper_data (add_paper_data c S pid none) S2 pid none
        = add_paper_data c S pid none)
    ∧
    (∀ S : List String, (add_paper_data create_db S pid none).length = S.length) := by
  refine ⟨?_, ?_, ?_⟩
  · intro c sections r hr
    rw [add_paper_data_eq_chromaAdd] at hr
    rcases mem_chromaAdd _ _ _ hr with hc | hrec
    · exact Or.inl hc
    · refine Or.inr ?_
      have := List.mem_map_of_mem VecRecord.id hrec
      rwa [map_id_zip pid _ _ (by simp)] at this
  · exact fun c S S2 h => add_paper_data_reinsert pid c S S2 h
  · exact fun S => add_paper_data_fresh_len S pid

/-- Witness for C2 amended at concrete instances: paper "1", chunks "alpha"/"beta",
then a re-insert of one chunk. -/
theorem C2_amended_ids_derived_no_dup_witness :
    (({ id := "paper1section0", document := "alpha", paperId := "1" } : VecRecord)
        ∈ ([] : List VecRecord)
      ∨ "paper1section0" ∈ (List.range 1).map (section_id "1"))
    ∧ add_paper_data (add_paper_data [] ["alpha", "beta"] "1" none) ["gamma"] "1" none
        = add_paper_data [] ["alpha", "beta"] "1" none
    ∧ (add_paper_data create_db ["alpha", "beta"] "1" none).length = 2 := by
  refine ⟨?_, ?_, ?_⟩
  · exact (C2_amended_ids_derived_no_dup "1").1 [] ["alpha"]
      { id := "paper1section0", document := "alpha", paperId := "1" } (by decide)
  · exact (C2_amended_ids_derived_no_dup "1").2.1 [] ["alpha", "beta"] ["gamma"]
      (by decide)
  · exact (C2_amended_ids_derived_no_dup "1").2.2 ["alpha", "beta"]

/-- C3 (code bug), evaluated at the failing input and at the claim's nominal cases.
First conjunct — the failing input: a ledger with one data row whose file lacks the
Iteration column. The code back-fills the missing column with the empty string, pandas
`isna` is false on "", so the `int(max) + 1` branch runs and `int("")` raises
ValueError, where the claim (and the evident intent of the `isna` guard) says the run
should start with iteration 1. Remaining conjuncts — the cases the code does satisfy:
an empty ledger yields 1 with or without the column, a ledger whose maximum iteration
is 4 yields 5, and every record written during one run carries the same computed
iteration number. -/
theorem C3_iteration_numbering :
    load_data_and_setup_iteration none 1
      = Except.error "ValueError: invalid literal for int() with base 10: "
    ∧ load_data_and_setup_iteration (some []) 0 = Except.ok 1
    ∧ load_data_and_setup_iteration none 0 = Except.ok 1
    ∧ load_data_and_setup_iteration
        (some [PdCell.intVal 2, PdCell.intVal 4, PdCell.intVal 3, PdCell.intVal 4]) 4
      = Except.ok 5
    ∧ (refiner_run_records ["Case Fatality Rate (CFR)", "R0"] ["12", "31"]
        (fun _ => "prompt") (fun _ _ => "0.02") (fun _ _ => "0.02")
        (fun _ _ => "Success") (fun _ _ => "TP") 5).map ExtractionRecord.iteration
      = [5, 5, 5, 5] := by
  refine ⟨by decide, by decide, by decide, by decide, by decide⟩

/-- C4 as stated is false at this input: the request `ask_GPT` issues for an
extraction call carries no temperature at all — in particular not the claimed
deterministic temperature=0. Only `model` and `messages` are passed. -/
theorem C4_counterexample :
    (ask_GPT_request [{ role := "user", content := "Extract the CFR." }]
        ask_GPT_default_deployment).temperature ≠ some 0 := by
  decide

/-- C4 amended: every generation call issued through `ask_GPT` sets NO explicit
temperature (the field is `none`), for any prompt and any deployment, so the
provider-side default sampling applies; temperature=0 determinism is not enforced. -/
theorem C4_amended_no_temperature_set (prompt : List ChatMessage) (deployment : String) :
    (ask_GPT_request prompt deployment).temperature = none := rfl

/-- C5 as stated is false at this input: with a generation provider that fails (a rate
limit, say), the rag_pipeline corpus run over two documents crashes with the
propagated exception — no output table is produced and no sentinel ("error"/"not
found") row is written for any document. -/
theorem C5_counterexample :
    rag_pipeline_run (fun _ => Except.error "RateLimitError: 429")
      (fun _ => Except.ok []) "sys" "refine" ["Case Fatality Rate (CFR)"]
      (fun _ => ["ctx"]) ["a.pdf", "b.pdf"]
      = Except.error "RateLimitError: 429" := rfl

/-- C5 amended: provider failures are NOT converted to sentinel records in the RAG
pipeline — whenever a corpus run returns an output table, every file's first-pass
generation call must have succeeded (equivalently, a generation failure for any one
document aborts the whole run, leaving no row for any document). The only sentinel
behaviour in the code is the refinement loop's `generate_improved_prompt`, which
returns "Not Found" when its generation call fails. -/
theorem C5_amended_failure_aborts_run :
    (∀ (gen : List ChatMessage → Except String String)
       (parseJson : String → Except String (List (String × String)))
       (sys_prompt refine_prompt : String) (parameters : List String)
       (contexts : String → List String) (files : List String)
       (table : List (String × List (String × String))),
      rag_pipeline_run gen parseJson sys_prompt refine_prompt parameters contexts files
        = Except.ok table →
      ∀ f ∈ files, ∃ r, gen (rag_first_prompt sys_prompt parameters (contexts f))
        = Except.ok r)
    ∧
    (∀ (gen : List ChatMessage → Except String String)
       (refiner_prompt_file : Except String String)
       (parameter previous_prompts e : String),
      gen [{ role := "user", content := improve_prompt_text parameter previous_prompts }]
        = Except.error e →
      generate_improved_prompt gen refiner_prompt_file parameter previous_prompts
        = "Not Found") := by
  constructor
  · intro gen parseJson sys_prompt refine_prompt parameters contexts files table hok f hf
    obtain ⟨v, hv⟩ := rag_pipeline_loop_ok_process gen parseJson sys_prompt refine_prompt
      parameters contexts files [] table hok f hf
    exact rag_process_file_ok_first_gen gen parseJson sys_prompt refine_prompt parameters
      contexts f v hv
  · intro gen refiner_prompt_file parameter previous_prompts e hg
    unfold generate_improved_prompt
    rw [hg]
    rfl

/-- Witness for C5 amended at concrete instances: an all-succeeding provider lets the
one-file run produce a table, so its first-pass call succeeded; a failing provider
makes `generate_improved_prompt` return the sentinel. -/
theorem C5_amended_failure_aborts_run_witness :
    (∃ r, (fun _ : List ChatMessage => (Except.ok "reply" : Except String String))
        (rag_first_prompt "sys" ["Case Fatality Rate (CFR)"]
          ((fun _ : String => ["ctx"]) "a.pdf"))
      = Except.ok r)
    ∧ generate_improved_prompt (fun _ => Except.error "APIConnectionError")
        (Except.ok "retrieval instructions") "Case Fatality Rate (CFR)" "history"
      = "Not Found" := by
  constructor
  · exact C5_amended_failure_aborts_run.1 (fun _ => Except.ok "reply")
      (fun _ => Except.ok []) "sys" "refine" ["Case Fatality Rate (CFR)"]
      (fun _ => ["ctx"]) ["a.pdf"] [("a.pdf", [])] rfl "a.pdf" (by simp)
  · exact C5_amended_failure_aborts_run.2 (fun _ => Except.error "APIConnectionError")
      (Except.ok "retrieval instructions") "Case Fatality Rate (CFR)" "history"
      "APIConnectionError" rfl

/-- C6 as stated is false at this input, by a trailing newline: segmenting paragraphs
["A","B","C"] with sections referencing indices [0,1] and [2] yields the chunks
"A\nB\n" and "C\n" — every referenced paragraph's content is followed by a newline —
not the plain newline-join "A\nB" and the bare paragraph content "C" that the claim
requires to hold "exactly". -/
theorem C6_counterexample :
    section_chunks ["A", "B", "C"]
        [["/paragraphs/0", "/paragraphs/1"], ["/paragraphs/2"]]
      = Except.ok ["A\nB\n", "C\n"]
    ∧ section_chunks ["A", "B", "C"]
        [["/paragraphs/0", "/paragraphs/1"], ["/paragraphs/2"]]
      ≠ Except.ok ["A\nB", "C"] := by
  decide

/-- C6 amended: for any paragraph contents, a document whose analysis has two sections
referencing paragraph indices [0,1] and [2] segments into exactly two chunks, in
order: the contents of paragraphs 0 and 1 each terminated by a newline, and the
content of paragraph 2 terminated by a newline (newline-joined with one trailing
newline per paragraph). -/
theorem C6_amended_newline_terminated (A B C : String) :
    section_chunks [A, B, C] [["/paragraphs/0", "/paragraphs/1"], ["/paragraphs/2"]]
      = Except.ok [A ++ "\n" ++ B ++ "\n", C ++ "\n"] := rfl

/-- C7: if any section's element list references a paragraph index that lies outside
the paragraph list, `section_chunks` raises (the IndexError of the Python list lookup
propagates out) rather than silently truncating or skipping the missing paragraph. -/
theorem C7_absent_paragraph_index_raises (paragraphs : List String)
    (sections : List (List String)) (elems : List String) (elem : String) (idx : Int)
    (hsec : elems ∈ sections) (helem : elem ∈ elems)
    (hparse : parse_element_index elem = Except.ok idx)
    (habsent : (paragraphs.length : Int) ≤ idx) :
    ∃ msg, section_chunks paragraphs sections = Except.error msg := by
  have hstep : ∀ b : String, ∃ e,
      (do
        let i ← parse_element_index elem
        let p ← pyListGet paragraphs i
        Except.ok (b ++ p ++ "\n")) = (Except.error e : Except String String) := by
    intro b
    refine ⟨"IndexError: list index out of range", ?_⟩
    rw [hparse]
    show (pyListGet paragraphs idx >>= fun p => Except.ok (b ++ p ++ "\n")) = _
    rw [pyListGet_error_of_ge paragraphs idx habsent]
    rfl
  have hchunk : ∃ e, section_chunk paragraphs elems = Except.error e :=
    foldlM_except_error _ elem hstep elems "" helem
  exact mapM_except_error (section_chunk paragraphs) elems hchunk sections hsec

/-- Witness for C7 at a concrete instance: one paragraph, one section referencing the
absent paragraph index 5. -/
theorem C7_absent_paragraph_index_raises_witness :
    ∃ msg, section_chunks ["only paragraph"] [["/paragraphs/5"]]
      = Except.error msg :=
  C7_absent_paragraph_index_raises ["only paragraph"] [["/paragraphs/5"]]
    ["/paragraphs/5"] "/paragraphs/5" 5 (by decide) (by decide) (by decide) (by decide)

/-- C8: cache idempotence of the OCR-backed text fetch. If a first fetch for a paper
succeeds, a second fetch for the same paper with no cache deletion in between is a
pure cache hit: it returns the same text, leaves the state unchanged (in particular
performs no further OCR call), and across both calls the external OCR collaborator ran
at most once. Presence of the cache entry is the sole hit signal, as in the code. -/
theorem C8_cache_fetch_idempotent (ocr : String → String) (st : RefinerState)
    (pdf_path paper_number text : String) (st1 : RefinerState)
    (hfirst : extract_text_from_pdf ocr st pdf_path paper_number
      = Except.ok (text, st1)) :
    extract_text_from_pdf ocr st1 pdf_path paper_number = Except.ok (text, st1)
    ∧ st1.ocrCalls ≤ st.ocrCalls + 1 := by
  unfold extract_text_from_pdf at hfirst ⊢
  cases hc : st.cache.lookup paper_number with
  | some t =>
    rw [hc] at hfirst
    obtain ⟨rfl, rfl⟩ : t = text ∧ st = st1 := by simpa [Prod.ext_iff] using hfirst
    constructor
    · rw [hc]
    · omega
  | none =>
    rw [hc] at hfirst
    cases hdir : st.outputDirExists with
    | true =>
      exfalso
      simp [export_text, hdir] at hfirst
    | false =>
      simp only [export_text, hdir] at hfirst
      rw [if_neg (by simp [hdir])] at hfirst
      obtain ⟨h1, h2⟩ : ocr pdf_path = text
          ∧ ({ cache := (paper_number, ocr pdf_path) :: st.cache,
               outputDirExists := true, ocrCalls := st.ocrCalls + 1 } : RefinerState)
            = st1 := by
        simpa [Prod.ext_iff] using hfirst
      subst h1
      subst h2
      constructor
      · simp [List.lookup]
      · simp

/-- Witness for C8 at a concrete instance: a fetch from the empty state (a cache miss
that performs the one OCR call), followed by the assertion instantiated there. -/
theorem C8_cache_fetch_idempotent_witness :
    extract_text_from_pdf (fun _ => "DOCINT FULL TEXT")
        { cache := [("12", "DOCINT FULL TEXT")], outputDirExists := true, ocrCalls := 1 }
        "test_papers/12.pdf" "12"
      = Except.ok ("DOCINT FULL TEXT",
          { cache := [("12", "DOCINT FULL TEXT")], outputDirExists := true,
            ocrCalls := 1 })
    ∧ ({ cache := [("12", "DOCINT FULL TEXT")], outputDirExists := true,
          ocrCalls := 1 } : RefinerState).ocrCalls
        ≤ ({ cache := [], outputDirExists := false, ocrCalls := 0 } :
            RefinerState).ocrCalls + 1 :=
  C8_cache_fetch_idempotent (fun _ => "DOCINT FULL TEXT")
    { cache := [], outputDirExists := false, ocrCalls := 0 } "test_papers/12.pdf" "12"
    "DOCINT FULL TEXT"
    { cache := [("12", "DOCINT FULL TEXT")], outputDirExists := true, ocrCalls := 1 }
    rfl

/-- C9: for any ledger and any iteration whose rows carry the confusion labels
[TP,TP,FP,FN,TN], the computed metrics are sensitivity = TP/(TP+FN) = 2/3,
precision = TP/(TP+FP) = 2/3 and specificity = TN/(TN+FP) = 1/2. -/
theorem C9_confusion_metrics (rows : List LedgerRow) (iteration : Int)
    (h : confusion_column rows iteration = ["TP", "TP", "FP", "FN", "TN"]) :
    (compute_confusion_matrix (confusion_column rows iteration)).sensitivity
        = some (2 / 3)
    ∧ (compute_confusion_matrix (confusion_column rows iteration)).precision
        = some (2 / 3)
    ∧ (compute_confusion_matrix (confusion_column rows iteration)).specificity
        = some (1 / 2) := by
  rw [h]
  have hTP : (["TP", "TP", "FP", "FN", "TN"] : List String).count "TP" = 2 := by decide
  have hTN : (["TP", "TP", "FP", "FN", "TN"] : List String).count "TN" = 1 := by decide
  have hFP : (["TP", "TP", "FP", "FN", "TN"] : List String).count "FP" = 1 := by decide
  have hFN : (["TP", "TP", "FP", "FN", "TN"] : List String).count "FN" = 1 := by decide
  refine ⟨?_, ?_, ?_⟩ <;>
  · simp only [compute_confusion_matrix, hTP, hTN, hFP, hFN]
    norm_num [safe_divide]

/-- Witness for C9 at a concrete ledger: five rows of iteration 1 carrying the labels
TP, TP, FP, FN, TN. -/
theorem C9_confusion_metrics_witness :
    (compute_confusion_matrix (confusion_column
        [{ iteration := 1, confusion := "TP" }, { iteration := 1, confusion := "TP" },
         { iteration := 1, confusion := "FP" }, { iteration := 1, confusion := "FN" },
         { iteration := 1, confusion := "TN" }] 1)).sensitivity = some (2 / 3)
    ∧ (compute_confusion_matrix (confusion_column
        [{ iteration := 1, confusion := "TP" }, { iteration := 1, confusion := "TP" },
         { iteration := 1, confusion := "FP" }, { iteration := 1, confusion := "FN" },
         { iteration := 1, confusion := "TN" }] 1)).precision = some (2 / 3)
    ∧ (compute_confusion_matrix (confusion_column
        [{ iteration := 1, confusion := "TP" }, { iteration := 1, confusion := "TP" },
         { iteration := 1, confusion := "FP" }, { iteration := 1, confusion := "FN" },
         { iteration := 1, confusion := "TN" }] 1)).specificity = some (1 / 2) :=
  C9_confusion_metrics
    [{ iteration := 1, confusion := "TP" }, { iteration := 1, confusion := "TP" },
     { iteration := 1, confusion := "FP" }, { iteration := 1, confusion := "FN" },
     { iteration := 1, confusion := "TN" }] 1 (by decide)

/-- C10: every cache miss in `extract_text_from_pdf` exports through `export_text`,
whose `os.mkdir` of the fixed `test_output` directory is not idempotent. First
conjunct: in any state in which that directory already exists, a cache-miss fetch
raises FileExistsError instead of returning the extracted text. Second conjunct: in
any run with two distinct paper ids that both miss the cache, the first miss creates
the directory, so the second cache-miss fetch raises. -/
theorem C10_second_cache_miss_raises (ocr : String → String) (st : RefinerState)
    (p1 p2 path1 path2 text : String) (st1 : RefinerState) :
    (st.cache.lookup p2 = none → st.outputDirExists = true →
      extract_text_from_pdf ocr st path2 p2
        = Except.error "FileExistsError: [Errno 17] File exists: test_output")
    ∧
    (st.cache.lookup p1 = none → st.cache.lookup p2 = none → p2 ≠ p1 →
      extract_text_from_pdf ocr st path1 p1 = Except.ok (text, st1) →
      extract_text_from_pdf ocr st1 path2 p2
        = Except.error "FileExistsError: [Errno 17] File exists: test_output") := by
  constructor
  · intro hmiss hdir
    unfold extract_text_from_pdf
    rw [hmiss]
    simp [export_text, hdir]
  · intro hm1 hm2 hne hfirst
    unfold extract_text_from_pdf at hfirst
    rw [hm1] at hfirst
    cases hdir : st.outputDirExists with
    | true =>
      exfalso
      simp [export_text, hdir] at hfirst
    | false =>
      simp only [export_text, hdir] at hfirst
      rw [if_neg (by simp [hdir])] at hfirst
      obtain ⟨h1, h2⟩ : ocr path1 = text
          ∧ ({ cache := (p1, ocr path1) :: st.cache,
               outputDirExists := true, ocrCalls := st.ocrCalls + 1 } : RefinerState)
            = st1 := by
        simpa [Prod.ext_iff] using hfirst
      subst h1
      subst h2
      unfold extract_text_from_pdf
      have hbeq : (p2 == p1) = false := beq_eq_false_iff_ne.mpr hne
      have hlook : (((p1, ocr path1) :: st.cache).lookup p2 : Option String) = none := by
        simp [List.lookup, hbeq, hm2]
      rw [hlook]
      simp [export_text]

/-- Witness for C10 at a concrete instance: papers "1" then "2", both cache misses
from the empty state; the second fetch hits the already-created directory. -/
theorem C10_second_cache_miss_raises_witness :
    extract_text_from_pdf (fun _ => "TEXT")
        { cache := [("1", "TEXT")], outputDirExists := true, ocrCalls := 1 }
        "papers/2.pdf" "2"
      = Except.error "FileExistsError: [Errno 17] File exists: test_output" :=
  (C10_second_cache_miss_raises (fun _ => "TEXT")
      { cache := [], outputDirExists := false, ocrCalls := 0 } "1" "2" "papers/1.pdf"
      "papers/2.pdf" "TEXT"
      { cache := [("1", "TEXT")], outputDirExists := true, ocrCalls := 1 }).2
    rfl rfl (by decide) rfl

end ParamExt
